import Mathlib

/-!
Shallow embedding of the `cost-tools` repository core
(`src/aws_cost_reporter.py` and `src/aws_cost_tools/cli.py`):
the report-configuration model, the filter compiler
(`AWSCostReporter._build_filter_clause`), the group-by assembly inside
`AWSCostReporter.generate_report`, the response flattener
(`AWSCostReporter.export_to_csv`), and the CLI filter-string parser
(`parse_filters`).

Python dicts are modelled as association lists in insertion order
(Python 3.7+ dicts preserve insertion order, and the code only ever
iterates them in that order).  Python `None` becomes `Option.none`;
Python truthiness on a `None`-able list/dict (`if config.filters:`)
becomes a `match` on the option together with an emptiness test.
`float(...)` on the amount strings is modelled by `pyFloat` into `Rat`
(the code only feeds it decimal literals; a malformed string raises in
Python, which is modelled by `Option.none` propagating through the
flattener).
-/

/-- `Granularity` enum from `aws_cost_reporter.py`. -/
inductive Granularity where
  | DAILY
  | MONTHLY
  | HOURLY
deriving DecidableEq, Repr

/-- `GroupBy` enum from `aws_cost_reporter.py`. -/
inductive GroupBy where
  | SERVICE
  | USAGE_TYPE
  | INSTANCE_TYPE
  | REGION
  | AVAILABILITY_ZONE
  | OPERATION
  | PURCHASE_TYPE
  | PLATFORM
  | TENANCY
deriving DecidableEq, Repr

/-- `.value` of the `GroupBy` enum members (value equals member name). -/
def GroupBy.value : GroupBy → String
  | .SERVICE => "SERVICE"
  | .USAGE_TYPE => "USAGE_TYPE"
  | .INSTANCE_TYPE => "INSTANCE_TYPE"
  | .REGION => "REGION"
  | .AVAILABILITY_ZONE => "AVAILABILITY_ZONE"
  | .OPERATION => "OPERATION"
  | .PURCHASE_TYPE => "PURCHASE_TYPE"
  | .PLATFORM => "PLATFORM"
  | .TENANCY => "TENANCY"

/-- `FilterDimension` enum from `aws_cost_reporter.py`. -/
inductive FilterDimension where
  | SERVICE
  | LINKED_ACCOUNT
  | REGION
  | USAGE_TYPE
  | INSTANCE_TYPE
  | OPERATION
deriving DecidableEq, Repr

/-- `.value` of the `FilterDimension` enum members (value equals member name). -/
def FilterDimension.value : FilterDimension → String
  | .SERVICE => "SERVICE"
  | .LINKED_ACCOUNT => "LINKED_ACCOUNT"
  | .REGION => "REGION"
  | .USAGE_TYPE => "USAGE_TYPE"
  | .INSTANCE_TYPE => "INSTANCE_TYPE"
  | .OPERATION => "OPERATION"

/-- `.name` of a `FilterDimension` member (identical to its `.value`). -/
def FilterDimension.name (d : FilterDimension) : String := d.value

/-- Iteration order of `for dim in FilterDimension` (enum definition order). -/
def FilterDimension.members : List FilterDimension :=
  [.SERVICE, .LINKED_ACCOUNT, .REGION, .USAGE_TYPE, .INSTANCE_TYPE, .OPERATION]

/-- A key of the `ReportConfig.filters` dict: the declared Python type is
`Union[FilterDimension, str]`. -/
abbrev FilterKey := FilterDimension ⊕ String

/-- `ReportConfig` dataclass after `__post_init__` has run: `metrics` and
`group_by` are already lists (never `None`), the `Optional` fields keep
their `Option` type.  Dicts are association lists in insertion order. -/
structure ReportConfig where
  start_date : String
  end_date : String
  linked_account_ids : Option (List String) := none
  granularity : Granularity := .MONTHLY
  group_by : List GroupBy
  filters : Option (List (FilterKey × List String)) := none
  tag_filters : Option (List (String × List String)) := none
  metrics : List String
deriving DecidableEq, Repr

/-- Construction of a `ReportConfig` followed by `__post_init__`:
`metrics is None` is replaced by `['BlendedCost', 'UnblendedCost']` and
`group_by is None` by `[]`.  The dataclass field defaults that matter to
construction (`None` for every optional field) are the `Option` arguments. -/
def mkReportConfig (start_date end_date : String)
    (linked_account_ids : Option (List String))
    (granularity : Granularity)
    (group_by : Option (List GroupBy))
    (filters : Option (List (FilterKey × List String)))
    (tag_filters : Option (List (String × List String)))
    (metrics : Option (List String)) : ReportConfig :=
  { start_date := start_date
    end_date := end_date
    linked_account_ids := linked_account_ids
    granularity := granularity
    group_by := match group_by with
      | none => []
      | some gs => gs
    filters := filters
    tag_filters := tag_filters
    metrics := match metrics with
      | none => ["BlendedCost", "UnblendedCost"]
      | some ms => ms }

/-- The provider's boolean filter expression: the leaf dicts
`{'Dimensions': {'Key': k, 'Values': vs}}` and `{'Tags': {'Key': k,
'Values': vs}}`, and the wrapping node `{'And': [...]}` built by
`_build_filter_clause`. -/
inductive FilterExpr where
  | dims (key : String) (values : List String)
  | tags (key : String) (values : List String)
  | and (children : List FilterExpr)

/-- The linked-account block of `_build_filter_clause`:
`if config.linked_account_ids:` (truthy = present and non-empty) appends
one `Dimensions` predicate with key `'LINKED_ACCOUNT'`. -/
def linkedAccountPreds (config : ReportConfig) : List FilterExpr :=
  match config.linked_account_ids with
  | none => []
  | some ids => if ids = [] then [] else [FilterExpr.dims "LINKED_ACCOUNT" ids]

/-- The dimension-filters loop of `_build_filter_clause`: one `Dimensions`
predicate per entry whose key `isinstance(filter_key, FilterDimension)`;
entries with a plain-string key append nothing. -/
def dimensionPreds (entries : List (FilterKey × List String)) : List FilterExpr :=
  entries.filterMap fun p =>
    match p.1 with
    | Sum.inl d => some (FilterExpr.dims d.value p.2)
    | Sum.inr _ => none

/-- The tag-filters loop of `_build_filter_clause`: one `Tags` predicate
per entry of `config.tag_filters`. -/
def tagPreds (entries : List (String × List String)) : List FilterExpr :=
  entries.map fun p => FilterExpr.tags p.1 p.2

/-- The full `filters` list accumulated by `_build_filter_clause` before
the final collapse: linked-account block, then the `config.filters`
loop (guarded by `if config.filters:`, truthy = present non-empty dict;
iterating an empty dict appends nothing either way), then the
`config.tag_filters` loop (same guard). -/
def buildPredicates (config : ReportConfig) : List FilterExpr :=
  linkedAccountPreds config
    ++ (match config.filters with
        | none => []
        | some fs => if fs = [] then [] else dimensionPreds fs)
    ++ (match config.tag_filters with
        | none => []
        | some ts => if ts = [] then [] else tagPreds ts)

/-- `AWSCostReporter._build_filter_clause`: the final three-case collapse
over the accumulated predicate list. -/
def build_filter_clause (config : ReportConfig) : Option FilterExpr :=
  match buildPredicates config with
  | [] => none
  | [f] => some f
  | f :: g :: rest => some (FilterExpr.and (f :: g :: rest))

/-- One entry of the `GroupBy` request parameter:
`{'Type': 'DIMENSION'|'TAG', 'Key': ...}`. -/
structure GroupByEntry where
  type_ : String
  key : String
deriving DecidableEq, Repr

/-- The group-by clause accumulated inside `generate_report`: a loop over
`config.group_by` appending `DIMENSION` entries, then (guarded by
`if config.tag_filters:`) a loop over the tag-filter keys appending
`TAG` entries. -/
def group_by_clause (config : ReportConfig) : List GroupByEntry :=
  let c := config.group_by.foldl
    (fun acc g => acc ++ [GroupByEntry.mk "DIMENSION" g.value]) []
  match config.tag_filters with
  | none => c
  | some ts =>
      if ts = [] then c
      else ts.foldl (fun acc p => acc ++ [GroupByEntry.mk "TAG" p.1]) c

/-- The `params` dict assembled by `generate_report` and passed to
`get_cost_and_usage`: `GroupBy` and `Filter` are only present when truthy
(a compiled `FilterExpr` is always a non-empty dict, so `if filter_clause:`
is just a `None` test on it). -/
structure CEParams where
  TimePeriod : String × String
  Granularity : String
  Metrics : List String
  GroupBy : Option (List GroupByEntry)
  Filter : Option FilterExpr

/-- `.value` of the `Granularity` enum members. -/
def Granularity.value : Granularity → String
  | .DAILY => "DAILY"
  | .MONTHLY => "MONTHLY"
  | .HOURLY => "HOURLY"

/-- The request assembly of `AWSCostReporter.generate_report` (everything
up to the remote call, which is the external collaborator). -/
def generate_report_params (config : ReportConfig) : CEParams :=
  let group_by := group_by_clause config
  { TimePeriod := (config.start_date, config.end_date)
    Granularity := config.granularity.value
    Metrics := config.metrics
    GroupBy := if group_by = [] then none else some group_by
    Filter := build_filter_clause config }

/-- One metric value dict of the response, e.g.
`{"Amount": "12.50", "Unit": "USD"}`; either key may be missing. -/
structure MetricData where
  Amount : Option String := none
  Unit : Option String := none
deriving DecidableEq, Repr

/-- One entry of a bucket's `Groups` list: an optional `Keys` tuple and an
optional metric-name-keyed `Metrics` dict. -/
structure RGroup where
  Keys : Option (List String) := none
  Metrics : Option (List (String × MetricData)) := none
deriving DecidableEq, Repr

/-- One time-period bucket of `ResultsByTime`.  `TimePeriod` is accessed
with plain indexing in the source (`time_result['TimePeriod']['Start']`),
so it is a required field here. -/
structure TimeResult where
  TimePeriod : String × String
  Total : Option (List (String × MetricData)) := none
  Groups : Option (List RGroup) := none
deriving DecidableEq, Repr

/-- The raw API response as consumed by `export_to_csv`:
only `ResultsByTime` is read (`report_data.get('ResultsByTime')`). -/
structure ReportData where
  ResultsByTime : Option (List TimeResult) := none
deriving DecidableEq, Repr

/-- A CSV cell value: the rows mix strings and the float produced by
`float(metric_data.get('Amount', 0))`. -/
inductive Value where
  | str (s : String)
  | num (q : Rat)
deriving DecidableEq, Repr

/-- A flat row: a Python dict in insertion order (the CSV writer takes its
fieldnames from `rows[0].keys()`, so key order matters). -/
abbrev Row := List (String × Value)

/-- Model of Python `float()` applied to the decimal strings of the
response (optional sign, digits with at most one decimal point, as in
`"12.50"`); anything outside that grammar is `none`, modelling the
`ValueError` that `float` raises and that propagates unhandled. -/
def pyFloatCore (cs : List Char) : Option Rat :=
  let intPart := cs.takeWhile (fun c => c ≠ '.')
  let intVal : Nat := intPart.foldl (fun n c => n * 10 + (c.toNat - 48)) 0
  match cs.dropWhile (fun c => c ≠ '.') with
  | [] =>
      if intPart ≠ [] ∧ intPart.all Char.isDigit then
        some (mkRat (Int.ofNat intVal) 1)
      else none
  | _ :: frac =>
      if (intPart ≠ [] ∨ frac ≠ []) ∧ intPart.all Char.isDigit ∧ frac.all Char.isDigit then
        some (mkRat
          (Int.ofNat (intVal * 10 ^ frac.length
            + frac.foldl (fun n c => n * 10 + (c.toNat - 48)) 0))
          (10 ^ frac.length))
      else none

/-- Whitespace stripping at both ends of a character list (the implicit
`strip` that Python `float` applies to its string argument). -/
def stripChars (cs : List Char) : List Char :=
  ((cs.dropWhile Char.isWhitespace).reverse.dropWhile Char.isWhitespace).reverse

/-- Model of Python `float` on a string: strips surrounding whitespace,
then an optional sign and a decimal literal. -/
def pyFloat (s : String) : Option Rat :=
  match stripChars s.toList with
  | '-' :: rest => (pyFloatCore rest).map Neg.neg
  | '+' :: rest => pyFloatCore rest
  | rest => pyFloatCore rest

/-- `float(metric_data.get('Amount', 0))`: a missing `Amount` key yields
the int `0`, so `float` gives `0.0` and cannot fail; a present value is a
string fed to `float`. -/
def amountOf (md : MetricData) : Option Rat :=
  match md.Amount with
  | none => some 0
  | some a => pyFloat a

/-- `metric_data.get('Unit', 'USD')`. -/
def unitOf (md : MetricData) : String :=
  match md.Unit with
  | none => "USD"
  | some u => u

/-- The `base_row` of the grouped branch of `export_to_csv`: the time
period, then either one `GroupBy_i` column per key (1-based, when
`flatten_groups` and `group.get('Keys')` is truthy, i.e. present and
non-empty) or a single `GroupKeys` column joining
`group.get('Keys', [])` with `'|'`. -/
def groupBaseRow (flatten_groups : Bool) (start_date end_date : String)
    (g : RGroup) : Row :=
  let base : Row := [("StartDate", .str start_date), ("EndDate", .str end_date)]
  let ks : List String := match g.Keys with
    | none => []
    | some ks => ks
  let keysTruthy : Bool := match g.Keys with
    | some (_ :: _) => true
    | _ => false
  if flatten_groups && keysTruthy then
    base ++ (ks.enum.map fun p => ("GroupBy_" ++ toString (p.1 + 1), Value.str p.2))
  else
    base ++ [("GroupKeys", .str (String.intercalate "|" ks))]

/-- The ungrouped branch of `export_to_csv`: one row per entry of
`time_result.get('Total', {})`, in dict order;
`none` models the `ValueError` of a malformed amount. -/
def totalRows (start_date end_date : String) :
    List (String × MetricData) → Option (List Row)
  | [] => some []
  | m :: rest =>
      (amountOf m.2).bind fun amt =>
        (totalRows start_date end_date rest).map fun rows =>
          [("StartDate", Value.str start_date), ("EndDate", Value.str end_date),
           ("Metric", Value.str m.1), ("Amount", Value.num amt),
           ("Unit", Value.str (unitOf m.2))] :: rows

/-- The inner metrics loop of the grouped branch: for each entry of
`group.get('Metrics', {})`, copy the base row and append the
`Metric`/`Amount`/`Unit` cells. -/
def groupMetricRows (base : Row) :
    List (String × MetricData) → Option (List Row)
  | [] => some []
  | m :: rest =>
      (amountOf m.2).bind fun amt =>
        (groupMetricRows base rest).map fun rows =>
          (base ++ [("Metric", Value.str m.1), ("Amount", Value.num amt),
                    ("Unit", Value.str (unitOf m.2))]) :: rows

/-- All rows of one group of a grouped bucket. -/
def groupRows (flatten_groups : Bool) (start_date end_date : String)
    (g : RGroup) : Option (List Row) :=
  groupMetricRows (groupBaseRow flatten_groups start_date end_date g)
    (match g.Metrics with
     | none => []
     | some ms => ms)

/-- The `for group in time_result['Groups']` loop. -/
def groupsRows (flatten_groups : Bool) (start_date end_date : String) :
    List RGroup → Option (List Row)
  | [] => some []
  | g :: gs =>
      (groupRows flatten_groups start_date end_date g).bind fun rs =>
        (groupsRows flatten_groups start_date end_date gs).map fun rest =>
          rs ++ rest

/-- Rows contributed by one time-period bucket: the branch on
`if not time_result.get('Groups'):` (falsy = absent or empty list). -/
def bucketRows (flatten_groups : Bool) (tr : TimeResult) : Option (List Row) :=
  match tr.Groups with
  | some (g :: gs) =>
      groupsRows flatten_groups tr.TimePeriod.1 tr.TimePeriod.2 (g :: gs)
  | _ =>
      totalRows tr.TimePeriod.1 tr.TimePeriod.2
        (match tr.Total with
         | none => []
         | some t => t)

/-- The full `rows` list accumulated by the
`for time_result in report_data['ResultsByTime']` loop. -/
def flattenRows (flatten_groups : Bool) : List TimeResult → Option (List Row)
  | [] => some []
  | tr :: trs =>
      (bucketRows flatten_groups tr).bind fun rs =>
        (flattenRows flatten_groups trs).map fun rest =>
          rs ++ rest

/-- Outcome of `export_to_csv`: either the "No data to export" path
(early return on falsy `ResultsByTime`, or an empty `rows` list — in both
cases no file is opened or written), or a write of a header row
(`rows[0].keys()`) followed by the data rows. -/
inductive ExportOutcome where
  | noData
  | wrote (fieldnames : List String) (rows : List Row)
deriving DecidableEq, Repr

/-- `AWSCostReporter.export_to_csv` end to end: `none` models an
uncaught exception (malformed amount), otherwise the outcome above. -/
def export_to_csv (report_data : ReportData) (flatten_groups : Bool) :
    Option ExportOutcome :=
  match report_data.ResultsByTime with
  | none => some .noData
  | some [] => some .noData
  | some (tr :: trs) =>
      (flattenRows flatten_groups (tr :: trs)).map fun rows =>
        match rows with
        | [] => .noData
        | r :: _ => .wrote (r.map Prod.fst) rows

/-- Row count a bucket should contribute according to its shape: one row
per metric of each group when the bucket has at least one group, else one
row per entry of its total. -/
def bucketRowCount (tr : TimeResult) : Nat :=
  match tr.Groups with
  | some (g :: gs) =>
      ((g :: gs).map fun g =>
        (match g.Metrics with
         | none => []
         | some ms => ms).length).sum
  | _ =>
      (match tr.Total with
       | none => []
       | some t => t).length

/-- Python `str.split(sep)` for a one-character separator (the only kind
`parse_filters` uses: `';'`, `','`): split at every occurrence, keeping
empty pieces, with `[""]` for the empty string. -/
def pySplitChar (sep : Char) : List Char → List (List Char)
  | [] => [[]]
  | c :: cs =>
      let r := pySplitChar sep cs
      if c = sep then [] :: r
      else
        match r with
        | [] => [[c]]
        | h :: t => (c :: h) :: t

/-- Python `str.split(sep, 1)` for a one-character separator, assuming
the separator occurs: the piece before its first occurrence and
everything after it. -/
def pySplitOnce (sep : Char) (cs : List Char) : List Char × List Char :=
  (cs.takeWhile (fun c => c ≠ sep), ((cs.dropWhile fun c => c ≠ sep).drop 1))

/-- Python `str.strip()` (ASCII whitespace suffices for the CLI inputs
modelled here). -/
def pyStrip (s : String) : String :=
  String.mk (stripChars s.toList)

/-- Python `str.lower()` (the enum names and CLI keys are ASCII). -/
def pyLower (s : String) : String :=
  String.mk (s.toList.map Char.toLower)

/-- The dimension-classification loop of `parse_filters`: the first
member of `FilterDimension` whose `.name` equals the key
case-insensitively (`dim.name.lower() == key.lower()`), if any. -/
def lookupDimension (key : String) : Option FilterDimension :=
  FilterDimension.members.find? fun dim => pyLower dim.name == pyLower key

/-- Python dict assignment `d[k] = v` on an insertion-ordered dict:
overwrite in place when the key exists, else append. -/
def dictInsert {κ α : Type} [BEq κ] (d : List (κ × α)) (k : κ) (v : α) :
    List (κ × α) :=
  if d.any fun p => p.1 == k then
    d.map fun p => if p.1 == k then (p.1, v) else p
  else d ++ [(k, v)]

/-- One iteration of the `for filter_pair in filter_str.split(";")` loop
of `parse_filters`: skip pairs without `'='`, split at the first `'='`,
strip the key and each comma-separated value, then classify the key as a
dimension filter or (for unrecognized keys) a tag filter. -/
def parseFilterPair
    (acc : List (FilterDimension × List String) × List (String × List String))
    (pair : List Char) :
    List (FilterDimension × List String) × List (String × List String) :=
  if pair.any fun c => c = '=' then
    let kv := pySplitOnce '=' pair
    let key := pyStrip (String.mk kv.1)
    let value_list := (pySplitChar ',' kv.2).map fun v => pyStrip (String.mk v)
    match lookupDimension key with
    | some dim => (dictInsert acc.1 dim value_list, acc.2)
    | none => (acc.1, dictInsert acc.2 key value_list)
  else acc

/-- `parse_filters` from `aws_cost_tools/cli.py`: `if not filter_str:`
(absent or empty string) yields `(None, None)`; otherwise the loop above,
with each resulting dict replaced by `None` when it stayed empty. -/
def parse_filters (filter_str : Option String) :
    Option (List (FilterDimension × List String))
      × Option (List (String × List String)) :=
  match filter_str with
  | none => (none, none)
  | some s =>
      if s = "" then (none, none)
      else
        let res := (pySplitChar ';' s.toList).foldl parseFilterPair ([], [])
        (if res.1 = [] then none else some res.1,
         if res.2 = [] then none else some res.2)

/-- A loop that appends one element per iteration is a `map`. -/
theorem foldl_append_singleton {α β : Type} (f : α → β) :
    ∀ (l : List α) (init : List β),
      l.foldl (fun acc x => acc ++ [f x]) init = init ++ l.map f
  | [], init => by simp
  | a :: l, init => by
      simp [List.foldl_cons, foldl_append_singleton f l (init ++ [f a])]

/-- The accumulated predicate list, normalised: the truthiness guards on
`config.filters` / `config.tag_filters` are invisible in the result
because iterating an empty dict contributes nothing anyway. -/
theorem buildPredicates_eq (config : ReportConfig) :
    buildPredicates config
      = linkedAccountPreds config
        ++ dimensionPreds (config.filters.getD [])
        ++ tagPreds (config.tag_filters.getD []) := by
  unfold buildPredicates
  congr 1
  · congr 1
    rcases config.filters with _ | (_ | ⟨a, as⟩) <;> simp [dimensionPreds]
  · rcases config.tag_filters with _ | (_ | ⟨a, as⟩) <;> simp [tagPreds]

/-- C8: a `ReportConfig` constructed without an explicit `metrics` value
gets `['BlendedCost', 'UnblendedCost']` (in particular a non-empty
metrics list), and one constructed without an explicit `group_by` value
gets the empty list. -/
theorem c8_construction_defaults (s e : String) (l : Option (List String))
    (gr : Granularity) (gb : Option (List GroupBy))
    (f : Option (List (FilterKey × List String)))
    (t : Option (List (String × List String)))
    (m : Option (List String)) :
    (mkReportConfig s e l gr gb f t none).metrics = ["BlendedCost", "UnblendedCost"]
      ∧ (mkReportConfig s e l gr gb f t none).metrics ≠ []
      ∧ (mkReportConfig s e l gr none f t m).group_by = [] :=
  ⟨rfl, by simp [mkReportConfig], rfl⟩

/-- C2: the filter compiler collapses the accumulated predicates in three
cases — zero predicates give no filter clause (and the assembled request
carries none), one predicate is used directly, two or more are wrapped in
a single AND node. -/
theorem c2_filter_collapse (config : ReportConfig) :
    (buildPredicates config = [] →
      build_filter_clause config = none
        ∧ (generate_report_params config).Filter = none)
    ∧ (∀ p, buildPredicates config = [p] → build_filter_clause config = some p)
    ∧ (∀ p q rest, buildPredicates config = p :: q :: rest →
        build_filter_clause config = some (FilterExpr.and (p :: q :: rest))) := by
  refine ⟨fun h => ⟨?_, ?_⟩, fun p h => ?_, fun p q rest h => ?_⟩ <;>
    simp [build_filter_clause, generate_report_params, h]

/-- Witness for C2 at a concrete config contributing two predicates. -/
theorem c2_filter_collapse_witness :
    build_filter_clause
        { start_date := "2024-01-01", end_date := "2024-02-01",
          linked_account_ids := some ["123456789012"],
          granularity := .MONTHLY, group_by := [],
          filters := none,
          tag_filters := some [("customer", ["CustomerA"])],
          metrics := ["BlendedCost"] }
      = some (FilterExpr.and
          [FilterExpr.dims "LINKED_ACCOUNT" ["123456789012"],
           FilterExpr.tags "customer" ["CustomerA"]]) :=
  (c2_filter_collapse _).2.2 _ _ _ rfl

/-- C3: with at least two contributed predicates, the compiled filter is
an AND node whose children are exactly the linked-account predicate block,
then the dimension predicates in `filters` iteration order, then the tag
predicates in `tag_filters` iteration order; and each mapping contributes
one predicate per (enum-keyed) entry in order. -/
theorem c3_and_children_order (config : ReportConfig)
    (h : 2 ≤ (buildPredicates config).length) :
    build_filter_clause config
      = some (FilterExpr.and
          (linkedAccountPreds config
            ++ dimensionPreds (config.filters.getD [])
            ++ tagPreds (config.tag_filters.getD [])))
    ∧ tagPreds (config.tag_filters.getD [])
        = ((config.tag_filters.getD []).map fun p => FilterExpr.tags p.1 p.2)
    ∧ ∀ entries : List (FilterDimension × List String),
        dimensionPreds (entries.map fun p => (Sum.inl p.1, p.2))
          = entries.map fun p => FilterExpr.dims p.1.value p.2 := by
  refine ⟨?_, rfl, ?_⟩
  · obtain ⟨p, q, rest, hpq⟩ :
        ∃ p q rest, buildPredicates config = p :: q :: rest := by
      rcases hbp : buildPredicates config with _ | ⟨p, _ | ⟨q, rest⟩⟩
      · rw [hbp] at h; simp at h
      · rw [hbp] at h; simp at h
      · exact ⟨p, q, rest, rfl⟩
    rw [← buildPredicates_eq, build_filter_clause, hpq]
  · intro entries
    induction entries with
    | nil => rfl
    | cons a as ih => simp [dimensionPreds] at ih ⊢; exact ih

/-- Witness for C3 at a concrete config with three predicates: account,
one dimension filter, one tag filter. -/
theorem c3_and_children_order_witness :
    build_filter_clause
        { start_date := "2024-01-01", end_date := "2024-02-01",
          linked_account_ids := some ["123456789012"],
          granularity := .MONTHLY, group_by := [],
          filters := some
            [(Sum.inl FilterDimension.SERVICE,
              ["Amazon Relational Database Service"])],
          tag_filters := some [("customer", ["CustomerA", "CustomerB"])],
          metrics := ["BlendedCost"] }
      = some (FilterExpr.and
          [FilterExpr.dims "LINKED_ACCOUNT" ["123456789012"],
           FilterExpr.dims "SERVICE" ["Amazon Relational Database Service"],
           FilterExpr.tags "customer" ["CustomerA", "CustomerB"]]) :=
  (c3_and_children_order _ (by simp [buildPredicates_eq, linkedAccountPreds,
    dimensionPreds, tagPreds])).1

/-- C4: the group-by clause assembled by `generate_report` is one
DIMENSION entry per `group_by` element in input order, followed by one
TAG entry per `tag_filters` key in iteration order — dimension entries
always precede tag entries. -/
theorem c4_group_by_order (config : ReportConfig) :
    group_by_clause config
      = config.group_by.map (fun g => GroupByEntry.mk "DIMENSION" g.value)
        ++ (config.tag_filters.getD []).map fun p => GroupByEntry.mk "TAG" p.1 := by
  unfold group_by_clause
  rcases config.tag_filters with _ | (_ | ⟨a, as⟩) <;>
    simp [foldl_append_singleton]

/-- C10: an entry of `config.filters` whose key is a plain string emits
no predicate — the compiled filter equals the one for the same config
with that entry removed. -/
theorem c10_string_filter_key_dropped (config : ReportConfig)
    (pre post : List (FilterKey × List String)) (s : String) (vs : List String)
    (h : config.filters = some (pre ++ (Sum.inr s, vs) :: post)) :
    build_filter_clause config
      = build_filter_clause { config with filters := some (pre ++ post) }
    ∧ dimensionPreds (pre ++ (Sum.inr s, vs) :: post)
      = dimensionPreds (pre ++ post) := by
  have hdim : dimensionPreds (pre ++ (Sum.inr s, vs) :: post)
      = dimensionPreds (pre ++ post) := by
    simp [dimensionPreds, List.filterMap_append]
  have hbp : buildPredicates config
      = buildPredicates { config with filters := some (pre ++ post) } := by
    rw [buildPredicates_eq, buildPredicates_eq]
    simp only [h, linkedAccountPreds, Option.getD_some]
    rw [hdim]
  exact ⟨by rw [build_filter_clause, build_filter_clause, hbp], hdim⟩

/-- Witness for C10: a config whose only dimension-filters entry has the
string key `"SERVICE"` compiles identically to the config without it. -/
theorem c10_string_filter_key_dropped_witness :
    build_filter_clause
        { start_date := "2024-01-01", end_date := "2024-02-01",
          linked_account_ids := some ["123456789012"],
          granularity := .MONTHLY, group_by := [],
          filters := some [(Sum.inr "SERVICE", ["AWS Lambda"])],
          tag_filters := none,
          metrics := ["BlendedCost"] }
      = build_filter_clause
        { start_date := "2024-01-01", end_date := "2024-02-01",
          linked_account_ids := some ["123456789012"],
          granularity := .MONTHLY, group_by := [],
          filters := some [],
          tag_filters := none,
          metrics := ["BlendedCost"] } :=
  (c10_string_filter_key_dropped _ [] [] "SERVICE" ["AWS Lambda"] rfl).1

/-- Counterexample to C5 as stated: a grouped bucket whose group has an
empty key tuple (K = 0).  With `flatten_groups=true` the claim predicts
zero group-key columns, but `group.get('Keys')` is falsy for an empty
tuple, so the code takes the `GroupKeys` branch and the base row carries
a `GroupKeys` column (value `""`). -/
theorem c5_counterexample :
    groupBaseRow true "2024-01-01" "2024-02-01"
        { Keys := some [], Metrics := some [("BlendedCost", { Amount := some "1.0", Unit := some "USD" })] }
      = [("StartDate", Value.str "2024-01-01"),
         ("EndDate", Value.str "2024-02-01"),
         ("GroupKeys", Value.str "")]
    ∧ groupBaseRow true "2024-01-01" "2024-02-01"
        { Keys := some [], Metrics := some [("BlendedCost", { Amount := some "1.0", Unit := some "USD" })] }
      ≠ [("StartDate", Value.str "2024-01-01"),
         ("EndDate", Value.str "2024-02-01")] := by
  refine ⟨rfl, by decide⟩

/-- C5 as amended, covering every grouped bucket: writing `ks` for the
effective key tuple `group.get('Keys', [])`, (a) `flatten_groups=true`
with a non-empty tuple expands it into columns `GroupBy_1..GroupBy_K`
(1-based); (b) `flatten_groups=true` with an empty or absent tuple
instead yields a single `GroupKeys` column holding the empty join;
(c) `flatten_groups=false` always yields a single `GroupKeys` column
joining the tuple with `'|'`. -/
theorem c5_group_key_columns (s e : String) (g : RGroup) :
    (g.Keys.getD [] ≠ [] →
      groupBaseRow true s e g
        = [("StartDate", Value.str s), ("EndDate", Value.str e)]
          ++ ((g.Keys.getD []).enum.map fun p =>
                ("GroupBy_" ++ toString (p.1 + 1), Value.str p.2)))
    ∧ (g.Keys.getD [] = [] →
      groupBaseRow true s e g
        = [("StartDate", Value.str s), ("EndDate", Value.str e),
           ("GroupKeys", Value.str "")])
    ∧ groupBaseRow false s e g
      = [("StartDate", Value.str s), ("EndDate", Value.str e),
         ("GroupKeys", Value.str (String.intercalate "|" (g.Keys.getD [])))] := by
  refine ⟨fun hne => ?_, fun hemp => ?_, ?_⟩
  · rcases hk : g.Keys with _ | (_ | ⟨k, ks⟩)
    · rw [hk] at hne; simp at hne
    · rw [hk] at hne; simp at hne
    · simp [groupBaseRow, hk]
  · rcases hk : g.Keys with _ | (_ | ⟨k, ks⟩)
    · simp [groupBaseRow, hk]; rfl
    · simp [groupBaseRow, hk]; rfl
    · rw [hk] at hemp; simp at hemp
  · rcases hk : g.Keys with _ | (_ | ⟨k, ks⟩) <;> simp [groupBaseRow, hk]

/-- Witness for the amended C5: clause (a) at a two-key group, clause (b)
at a group with no `Keys` key, clause (c) at the two-key group. -/
theorem c5_group_key_columns_witness :
    groupBaseRow true "2024-01-01" "2024-02-01"
        { Keys := some ["Amazon Relational Database Service", "USW2-BoxUsage"],
          Metrics := none }
      = [("StartDate", Value.str "2024-01-01"),
         ("EndDate", Value.str "2024-02-01"),
         ("GroupBy_1", Value.str "Amazon Relational Database Service"),
         ("GroupBy_2", Value.str "USW2-BoxUsage")]
    ∧ groupBaseRow true "2024-01-01" "2024-02-01"
        { Keys := none, Metrics := none }
      = [("StartDate", Value.str "2024-01-01"),
         ("EndDate", Value.str "2024-02-01"),
         ("GroupKeys", Value.str "")]
    ∧ groupBaseRow false "2024-01-01" "2024-02-01"
        { Keys := some ["Amazon Relational Database Service", "USW2-BoxUsage"],
          Metrics := none }
      = [("StartDate", Value.str "2024-01-01"),
         ("EndDate", Value.str "2024-02-01"),
         ("GroupKeys",
          Value.str "Amazon Relational Database Service|USW2-BoxUsage")] := by
  refine ⟨?_, ?_, ?_⟩
  · have h := (c5_group_key_columns "2024-01-01" "2024-02-01"
      { Keys := some ["Amazon Relational Database Service", "USW2-BoxUsage"],
        Metrics := none }).1 (by decide)
    simpa using h
  · have h := (c5_group_key_columns "2024-01-01" "2024-02-01"
      { Keys := none, Metrics := none }).2.1 rfl
    simpa using h
  · have h := (c5_group_key_columns "2024-01-01" "2024-02-01"
      { Keys := some ["Amazon Relational Database Service", "USW2-BoxUsage"],
        Metrics := none }).2.2
    simpa using h

/-- Buckets with neither totals nor groups (both keys absent or empty)
contribute no rows. -/
theorem flattenRows_all_empty (fg : Bool) :
    ∀ buckets : List TimeResult,
      (∀ tr ∈ buckets,
        (tr.Total = none ∨ tr.Total = some [])
          ∧ (tr.Groups = none ∨ tr.Groups = some [])) →
      flattenRows fg buckets = some []
  | [], _ => rfl
  | tr :: trs, h => by
      obtain ⟨ht, hg⟩ := h tr (by simp)
      have hbr : bucketRows fg tr = some [] := by
        unfold bucketRows
        rcases hg with hg | hg <;> rw [hg] <;>
          rcases ht with ht | ht <;> rw [ht] <;> rfl
      have ih := flattenRows_all_empty fg trs
        (fun t htr => h t (by simp [htr]))
      simp [flattenRows, hbr, ih]

/-- C6: an absent or empty `ResultsByTime` makes `export_to_csv` take the
no-write "No data to export" path, and the same happens when every bucket
has neither totals nor groups (zero rows accumulated). -/
theorem c6_no_data_no_write (fg : Bool) (buckets : List TimeResult)
    (hempty : ∀ tr ∈ buckets,
      (tr.Total = none ∨ tr.Total = some [])
        ∧ (tr.Groups = none ∨ tr.Groups = some [])) :
    export_to_csv { ResultsByTime := none } fg = some ExportOutcome.noData
    ∧ export_to_csv { ResultsByTime := some [] } fg = some ExportOutcome.noData
    ∧ export_to_csv { ResultsByTime := some buckets } fg
        = some ExportOutcome.noData := by
  refine ⟨rfl, rfl, ?_⟩
  have hflat := flattenRows_all_empty fg buckets hempty
  rcases buckets with _ | ⟨tr, trs⟩
  · rfl
  · simp [export_to_csv, hflat]

/-- Witness for C6: one bucket with an empty `Total` dict and no
`Groups` key. -/
theorem c6_no_data_no_write_witness :
    export_to_csv
        { ResultsByTime := some
            [{ TimePeriod := ("2024-01-01", "2024-02-01"),
               Total := some [], Groups := none }] } true
      = some ExportOutcome.noData :=
  (c6_no_data_no_write true
    [{ TimePeriod := ("2024-01-01", "2024-02-01"),
       Total := some [], Groups := none }]
    (by simp)).2.2

/-- C7: in both the ungrouped (`Total`) branch and the grouped
(`Metrics`) branch, a metric entry with a missing `Amount` key yields a
row amount of `0` and a missing `Unit` key yields the fixed placeholder
`"USD"`; apart from these two `get` defaults the rows are built directly
from the entry. -/
theorem c7_missing_key_defaults (s e name : String) (md : MetricData)
    (fg : Bool) (g : RGroup) (hg : g.Metrics = some [(name, md)])
    (amt : Rat) (hamt : amountOf md = some amt) :
    totalRows s e [(name, md)]
      = some [[("StartDate", Value.str s), ("EndDate", Value.str e),
               ("Metric", Value.str name), ("Amount", Value.num amt),
               ("Unit", Value.str (unitOf md))]]
    ∧ groupRows fg s e g
      = some [groupBaseRow fg s e g
          ++ [("Metric", Value.str name), ("Amount", Value.num amt),
              ("Unit", Value.str (unitOf md))]]
    ∧ (md.Amount = none → amt = 0)
    ∧ (md.Unit = none → unitOf md = "USD") := by
  refine ⟨?_, ?_, fun hA => ?_, fun hU => ?_⟩
  · simp [totalRows, hamt]
  · simp [groupRows, hg, groupMetricRows, hamt]
  · rw [amountOf, hA] at hamt
    exact (Option.some_inj.mp hamt).symm
  · rw [unitOf, hU]

/-- Witness for C7: a metric entry missing both `Amount` and `Unit`. -/
theorem c7_missing_key_defaults_witness :
    totalRows "2024-01-01" "2024-02-01" [("BlendedCost", MetricData.mk none none)]
      = some [[("StartDate", Value.str "2024-01-01"),
               ("EndDate", Value.str "2024-02-01"),
               ("Metric", Value.str "BlendedCost"),
               ("Amount", Value.num 0),
               ("Unit", Value.str (unitOf (MetricData.mk none none)))]]
    ∧ unitOf (MetricData.mk none none) = "USD" :=
  ⟨(c7_missing_key_defaults "2024-01-01" "2024-02-01" "BlendedCost"
      (MetricData.mk none none) true
      (RGroup.mk none (some [("BlendedCost", MetricData.mk none none)]))
      rfl 0 rfl).1,
   (c7_missing_key_defaults "2024-01-01" "2024-02-01" "BlendedCost"
      (MetricData.mk none none) true
      (RGroup.mk none (some [("BlendedCost", MetricData.mk none none)]))
      rfl 0 rfl).2.2.2 rfl⟩

/-- The ungrouped branch yields one row per `Total` entry. -/
theorem totalRows_length (s e : String) :
    ∀ (ms : List (String × MetricData)) (rows : List Row),
      totalRows s e ms = some rows → rows.length = ms.length
  | [], rows, h => by injection h with h2; subst h2; rfl
  | m :: ms, rows, h => by
      unfold totalRows at h
      obtain ⟨amt, ha, h⟩ := Option.bind_eq_some.mp h
      obtain ⟨rest, hr, rfl⟩ := Option.map_eq_some'.mp h
      simp [totalRows_length s e ms rest hr]

/-- The inner metrics loop of the grouped branch yields one row per
`Metrics` entry. -/
theorem groupMetricRows_length (base : Row) :
    ∀ (ms : List (String × MetricData)) (rows : List Row),
      groupMetricRows base ms = some rows → rows.length = ms.length
  | [], rows, h => by injection h with h2; subst h2; rfl
  | m :: ms, rows, h => by
      unfold groupMetricRows at h
      obtain ⟨amt, ha, h⟩ := Option.bind_eq_some.mp h
      obtain ⟨rest, hr, rfl⟩ := Option.map_eq_some'.mp h
      simp [groupMetricRows_length base ms rest hr]

/-- The groups loop yields, per group, one row per metric entry. -/
theorem groupsRows_length (fg : Bool) (s e : String) :
    ∀ (gs : List RGroup) (rows : List Row),
      groupsRows fg s e gs = some rows →
      rows.length
        = (gs.map fun g =>
            (match g.Metrics with
             | none => []
             | some ms => ms).length).sum
  | [], rows, h => by injection h with h2; subst h2; rfl
  | g :: gs, rows, h => by
      unfold groupsRows at h
      obtain ⟨rs, hg, h⟩ := Option.bind_eq_some.mp h
      obtain ⟨rest, hr, rfl⟩ := Option.map_eq_some'.mp h
      have h1 := groupMetricRows_length
        (groupBaseRow fg s e g)
        (match g.Metrics with
         | none => []
         | some ms => ms) rs hg
      have h2 := groupsRows_length fg s e gs rest hr
      simp [h1, h2]

/-- One bucket contributes `bucketRowCount` rows. -/
theorem bucketRows_length (fg : Bool) (tr : TimeResult) (rows : List Row)
    (h : bucketRows fg tr = some rows) :
    rows.length = bucketRowCount tr := by
  unfold bucketRows at h
  unfold bucketRowCount
  rcases hg : tr.Groups with _ | (_ | ⟨g, gs⟩)
  · rw [hg] at h
    exact totalRows_length _ _ _ rows h
  · rw [hg] at h
    exact totalRows_length _ _ _ rows h
  · rw [hg] at h
    exact groupsRows_length fg _ _ (g :: gs) rows h

/-- C1: whenever flattening succeeds, it produces exactly one row per
(bucket × group × metric) combination — each bucket with at least one
group contributes one row per metric of each of its groups, and each
ungrouped bucket one row per metric of its `Total`. -/
theorem c1_flatten_row_count (fg : Bool) :
    ∀ (buckets : List TimeResult) (rows : List Row),
      flattenRows fg buckets = some rows →
      rows.length = (buckets.map bucketRowCount).sum
  | [], rows, h => by injection h with h2; subst h2; rfl
  | tr :: trs, rows, h => by
      unfold flattenRows at h
      obtain ⟨rs, hb, h⟩ := Option.bind_eq_some.mp h
      obtain ⟨rest, hr, rfl⟩ := Option.map_eq_some'.mp h
      simp [bucketRows_length fg tr rs hb, c1_flatten_row_count fg trs rest hr]

/-- Witness for C1: the spec scenario — one bucket, no `Groups`, a
one-entry `Total` with amount string `"12.50"` — flattens to exactly one
row whose amount is the parsed number 12.5. -/
theorem c1_flatten_row_count_witness :
    flattenRows true
        [{ TimePeriod := ("2024-01-01", "2024-02-01"),
           Total := some [("BlendedCost",
             { Amount := some "12.50", Unit := some "USD" })],
           Groups := none }]
      = some [[("StartDate", Value.str "2024-01-01"),
               ("EndDate", Value.str "2024-02-01"),
               ("Metric", Value.str "BlendedCost"),
               ("Amount", Value.num (mkRat 25 2)),
               ("Unit", Value.str "USD")]]
    ∧ (1 : Nat)
      = ([({ TimePeriod := ("2024-01-01", "2024-02-01"),
             Total := some [("BlendedCost",
               { Amount := some "12.50", Unit := some "USD" })],
             Groups := none } : TimeResult)].map bucketRowCount).sum := by
  constructor
  · decide
  · exact c1_flatten_row_count true
      [{ TimePeriod := ("2024-01-01", "2024-02-01"),
         Total := some [("BlendedCost",
           { Amount := some "12.50", Unit := some "USD" })],
         Groups := none }]
      [[("StartDate", Value.str "2024-01-01"),
        ("EndDate", Value.str "2024-02-01"),
        ("Metric", Value.str "BlendedCost"),
        ("Amount", Value.num (mkRat 25 2)),
        ("Unit", Value.str "USD")]]
      (by decide)

/-- C9: `parse_filters` splits on `';'` into key/value pairs and on `','`
within a value list, classifying keys case-insensitively against the six
filterable dimensions (unrecognized keys become tag filters); the
spec scenario string parses to the SERVICE dimension filter and the
`customer` tag filter. -/
theorem c9_parse_filters_scenario :
    parse_filters
        (some "service=Amazon Relational Database Service;customer=CustomerA,CustomerB")
      = (some [(FilterDimension.SERVICE, ["Amazon Relational Database Service"])],
         some [("customer", ["CustomerA", "CustomerB"])])
    ∧ ∀ k₁ k₂ : String, pyLower k₁ = pyLower k₂ →
        lookupDimension k₁ = lookupDimension k₂ := by
  refine ⟨by decide, fun k₁ k₂ h => ?_⟩
  simp [lookupDimension, h]

/-- Witness for C9: the case-insensitive classification at concrete keys
(`"SERVICE"` and `"Service"` classify alike). -/
theorem c9_parse_filters_scenario_witness :
    lookupDimension "SERVICE" = lookupDimension "Service" :=
  c9_parse_filters_scenario.2 "SERVICE" "Service" (by decide)
